import Mathlib

/-!
# Verification of the COLO proxy connection-tracking and packet-comparison engine

A shallow embedding of `net/colo-proxy.c` (connection-tracking / packet-comparison
engine of the COLO fault-tolerance proxy).  Machine integers are modelled as `Nat`
or `Int`; byte buffers as `List Nat` (each element a byte value); the scattered
`iovec` input as `List (List Nat)`; the peer socket as an explicit byte stream.
Functions defined in the C file are translated directly; engine components that
the C file only references (the comparison thread body, the secondary-packet
enqueue path, the registry insert/evict path, the checkpoint handshake handlers)
are modelled from the specification and marked as such in their doc comments.
-/

namespace ColoProxy

/-- Proxy run status, from the anonymous `enum` of `colo-proxy.c`
(`COLO_PROXY_NONE` / `COLO_PROXY_RUNNING` / `COLO_PROXY_DONE`). -/
inductive ProxyStatus where
  | COLO_PROXY_NONE
  | COLO_PROXY_RUNNING
  | COLO_PROXY_DONE
deriving DecidableEq, Repr

/-- The COLO mode of a filter (`COLO_MODE_PRIMARY` / `COLO_MODE_SECONDARY`,
from the QAPI `COLOMode` enum referenced by the source). -/
inductive ColoMode where
  | COLO_MODE_PRIMARY
  | COLO_MODE_SECONDARY
deriving DecidableEq, Repr

/-- Netfilter direction (`nf->direction`); `colo_proxy_setup` requires
`NET_FILTER_DIRECTION_ALL`. -/
inductive NetFilterDirection where
  | NET_FILTER_DIRECTION_ALL
  | NET_FILTER_DIRECTION_RX
  | NET_FILTER_DIRECTION_TX
deriving DecidableEq, Repr

/-- `struct ConnectionKey`: the exact-match 5-tuple (src addr, dst addr,
src port, dst port, ip protocol).  Addresses and ports are byte-assembled
naturals. -/
structure ConnectionKey where
  src : Nat
  dst : Nat
  src_port : Nat
  dst_port : Nat
  ip_proto : Nat
deriving DecidableEq, Repr

/-- `struct Packet`: one captured frame.  `data` owns the raw bytes,
`size` is its length in bytes. -/
structure Packet where
  data : List Nat
  size : Nat
deriving DecidableEq, Repr

/-- `struct Connection`: per-flow record with the two pending-packet queues,
the `processing` scheduling flag and the protocol number. -/
structure Connection where
  primary_list : List Packet
  secondary_list : List Packet
  processing : Bool
  ip_proto : Nat
deriving DecidableEq, Repr

/-- `connection_key_equal`: exact byte-for-byte key comparison
(`memcmp(...) == 0` over the packed struct). -/
def connection_key_equal (k1 k2 : ConnectionKey) : Bool :=
  decide (k1 = k2)

/-- `struct COLOProxyState`: the per-filter state of the engine. -/
structure COLOProxyState where
  colo_mode : ColoMode
  addr : Option String
  direction : NetFilterDirection
  sockfd : Int
  status : ProxyStatus
  hashtable_size : Int
  /-- packets handed to `qemu_net_queue_send(s->incoming_queue, ...)`,
  i.e. re-injected into the guest's normal traffic path -/
  incoming_queue : List (List Nat)
  /-- whether `qemu_set_fd_handler` registered `colo_proxy_sock_receive` -/
  fd_handler : Bool
  /-- whether the transport socket is open -/
  socket_open : Bool
  /-- `need_compare_ev`: the compare thread's wake event -/
  need_compare_ev : Bool
  /-- whether the compare thread exists and has not been joined -/
  thread_running : Bool
deriving DecidableEq, Repr

/-- The whole engine state: the per-filter state plus the file-scope globals
`colo_conn_hash` (registry, as an association list keyed by `ConnectionKey`),
`colo_do_checkpoint` and `hashtable_max_size`. -/
structure EngineState where
  s : COLOProxyState
  colo_conn_hash : List (ConnectionKey × Connection)
  colo_do_checkpoint : Bool
  hashtable_max_size : Nat
deriving DecidableEq, Repr

/-- `iov_size`: total byte size of a scattered buffer. -/
def iov_size (iov : List (List Nat)) : Nat :=
  (iov.map List.length).sum

/-- `colo_proxy_query_checkpoint`: read the `colo_do_checkpoint` flag. -/
def colo_proxy_query_checkpoint (g : EngineState) : Bool :=
  g.colo_do_checkpoint

/-- `colo_proxy_notify_checkpoint`: set the `colo_do_checkpoint` flag. -/
def colo_proxy_notify_checkpoint (g : EngineState) : EngineState :=
  { g with colo_do_checkpoint := true }

/-- `colo_proxy_receive_iov`: the packet-arrival entry point.  Returns the
reported size, the successor state, and whether `sent_cb` was invoked.
When the proxy is not `COLO_PROXY_RUNNING` it returns `0`; otherwise the
primary/secondary handler positions are placeholder comments in the source,
so it returns `iov_size(iov, iovcnt)` with no other effect. -/
def colo_proxy_receive_iov (g : EngineState) (iov : List (List Nat)) :
    Nat × EngineState × Bool :=
  if g.s.status ≠ ProxyStatus.COLO_PROXY_RUNNING then
    (0, g, false)
  else
    (iov_size iov, g, false)

/-! ## Registry (spec-modelled insert path)

The source declares the registry (`colo_conn_hash`, `hashtable_max_size`,
`connection_key_hash`, `connection_key_equal`, `connection_destroy`) but the
insert/evict path itself is referenced only through the missing handler
functions, so it is modelled from the specification here. -/

/-- `connection_destroy` (referenced by `g_hash_table_new_full` but not defined
in the available source).  Modelled from the spec: destruction drains and
releases both queues. -/
def connection_destroy (c : Connection) : Connection :=
  { c with primary_list := [], secondary_list := [] }

/-- Modelled from the spec: creation allocates a new Connection with empty
queues and `processing=false`. -/
def connection_new (proto : Nat) : Connection :=
  { primary_list := [], secondary_list := [], processing := false, ip_proto := proto }

/-- Registry lookup by exact key equality (`connection_key_equal`). -/
def conn_lookup (tbl : List (ConnectionKey × Connection)) (k : ConnectionKey) :
    Option Connection :=
  match tbl.find? (fun e => connection_key_equal e.1 k) with
  | some e => some e.2
  | none => none

/-- Modelled from the spec: `lookup_or_create(key)` of the Registry
(the insert path is not in the available source).  A hit returns the table
unchanged; a miss inserts a fresh Connection; when the table is at the
configured bound, the oldest entry is evicted (drained and released, returned
as the second component) before the new Connection is inserted, so the packet
path never fails on registry pressure. -/
def lookup_or_create (tbl : List (ConnectionKey × Connection)) (bound : Nat)
    (k : ConnectionKey) :
    List (ConnectionKey × Connection) × Option Connection :=
  match tbl.find? (fun e => connection_key_equal e.1 k) with
  | some _ => (tbl, none)
  | none =>
    if tbl.length < bound then
      ((k, connection_new k.ip_proto) :: tbl, none)
    else
      match tbl.getLast? with
      | some e => ((k, connection_new k.ip_proto) :: tbl.dropLast,
                   some (connection_destroy e.2))
      | none => ((k, connection_new k.ip_proto) :: tbl, none)

/-! ## Packet classification (spec-modelled) -/

/-- Modelled from the spec: `classify(raw_bytes)` extracts the 5-tuple
ConnectionKey (the parse helpers are not in the available source).  The
link-layer (Ethernet) header is skipped after validating the IPv4 ethertype,
the network-layer protocol field is read, and the transport-layer offset is
computed from the IPv4 header-length field; buffers too short or of
unsupported protocol yield `none` (ClassificationError). -/
def classify (buf : List Nat) : Option ConnectionKey :=
  if buf.length < 34 then none
  else
    let ethertype := buf.getD 12 0 * 256 + buf.getD 13 0
    if ethertype ≠ 2048 then none
    else
      let hlen := buf.getD 14 0 % 16 * 4
      if hlen < 20 then none
      else if buf.length < 14 + hlen + 4 then none
      else
        let ip_proto := buf.getD 23 0
        if ip_proto ≠ 6 ∧ ip_proto ≠ 17 then none
        else
          some { src := ((buf.getD 26 0 * 256 + buf.getD 27 0) * 256
                          + buf.getD 28 0) * 256 + buf.getD 29 0,
                 dst := ((buf.getD 30 0 * 256 + buf.getD 31 0) * 256
                          + buf.getD 32 0) * 256 + buf.getD 33 0,
                 src_port := buf.getD (14 + hlen) 0 * 256 + buf.getD (14 + hlen + 1) 0,
                 dst_port := buf.getD (14 + hlen + 2) 0 * 256 + buf.getD (14 + hlen + 3) 0,
                 ip_proto := ip_proto }

/-- Append a secondary-origin packet to the flow `k` in the table and mark the
flow as having pending work. -/
def conn_enqueue_secondary (tbl : List (ConnectionKey × Connection))
    (k : ConnectionKey) (p : Packet) : List (ConnectionKey × Connection) :=
  tbl.map (fun e =>
    if connection_key_equal e.1 k then
      (e.1, { e.2 with secondary_list := e.2.secondary_list ++ [p],
                       processing := true })
    else e)

/-- Modelled from the spec: `colo_proxy_enqueue_secondary_packet` (referenced
by `colo_proxy_sock_receive` but not defined in the available source).  The
buffer is classified; on success the flow is looked up or created and the
packet is queued on that flow's `secondary_list`, then the Comparison Task is
woken; a ClassificationError leaves the flow state untouched. -/
def colo_proxy_enqueue_secondary_packet (g : EngineState) (buf : List Nat) :
    EngineState :=
  match classify buf with
  | none => g
  | some k =>
    let tbl := (lookup_or_create g.colo_conn_hash g.hashtable_max_size k).1
    { g with colo_conn_hash := conn_enqueue_secondary tbl k ⟨buf, buf.length⟩,
             s := { g.s with need_compare_ev := true } }

/-! ## Cross-host transport framing -/

/-- `NET_BUFSIZE`, the maximum frame size bound used by
`colo_proxy_sock_receive` (defined in QEMU's net headers, not in the available
source): `4096 + 65536`. -/
def NET_BUFSIZE : Nat := 4096 + 65536

/-- Little-endian byte encoding of the 8-byte `ssize_t` length that
`colo_proxy_sock_send` transmits ahead of the payload. -/
def encode_ssize (n : Nat) : List Nat :=
  [n % 256, n / 256 % 256, n / 65536 % 256, n / 16777216 % 256,
   n / 4294967296 % 256, n / 1099511627776 % 256,
   n / 281474976710656 % 256, n / 72057594037927936 % 256]

/-- Decode the 8-byte little-endian `ssize_t` length read by
`colo_proxy_sock_receive` (two's complement; fewer than 8 bytes leave the
zero-initialized `len`). -/
def decode_ssize (bytes : List Nat) : Int :=
  match bytes with
  | b0 :: b1 :: b2 :: b3 :: b4 :: b5 :: b6 :: b7 :: _ =>
    let u := b0 % 256 + 256 * (b1 % 256 + 256 * (b2 % 256 + 256 * (b3 % 256 +
      256 * (b4 % 256 + 256 * (b5 % 256 + 256 * (b6 % 256 + 256 * (b7 % 256)))))))
    if u < 2 ^ 63 then (u : Int) else (u : Int) - 2 ^ 64
  | _ => 0

/-- `colo_proxy_sock_send`: the bytes emitted on the transport socket for one
scattered payload.  A zero-size payload sends nothing; otherwise the 8-byte
length is sent first, immediately followed by the payload bytes. -/
def colo_proxy_sock_send (iov : List (List Nat)) : List Nat :=
  let size := iov_size iov
  if size = 0 then []
  else encode_ssize size ++ iov.flatten

/-- Result of `colo_proxy_sock_receive`: successor state, the payload buffer
read (if any), and whether a payload allocation (`g_malloc0`) happened. -/
structure SockRecvResult where
  g : EngineState
  received : Option (List Nat)
  allocated : Bool
deriving DecidableEq, Repr

/-- `colo_proxy_sock_receive`: read the 8-byte length from the stream; when
`0 < len < NET_BUFSIZE`, allocate and read `len` payload bytes, then either
enqueue them as a secondary-origin packet (primary mode) or hand them to the
incoming queue for re-injection (secondary mode); otherwise do nothing. -/
def colo_proxy_sock_receive (g : EngineState) (stream : List Nat) :
    SockRecvResult :=
  let len := decode_ssize (stream.take 8)
  if 0 < len ∧ len < (NET_BUFSIZE : Int) then
    let buf := (stream.drop 8).take len.toNat
    if g.s.colo_mode = ColoMode.COLO_MODE_PRIMARY then
      { g := colo_proxy_enqueue_secondary_packet g buf,
        received := some buf, allocated := true }
    else
      { g := { g with s := { g.s with incoming_queue := g.s.incoming_queue ++ [buf] } },
        received := some buf, allocated := true }
  else
    { g := g, received := none, allocated := false }

/-! ## Lifecycle -/

/-- Modelled from the spec: the checkpoint-completion handshake handler on the
primary (`colo_proxy_primary_checkpoint`, referenced by `colo_proxy_stop_one`
but not defined in the available source).  The lifecycle coordinator
acknowledges checkpoint completion: all per-flow queued packets are released
and the checkpoint-requested flag is reset. -/
def colo_proxy_primary_checkpoint (g : EngineState) : EngineState :=
  { g with colo_conn_hash := g.colo_conn_hash.map (fun e => (e.1, connection_destroy e.2)),
           colo_do_checkpoint := false }

/-- Modelled from the spec: the secondary-side counterpart of the
checkpoint-completion handshake (`colo_proxy_secondary_checkpoint`, referenced
by `colo_proxy_stop_one` but not defined in the available source). -/
def colo_proxy_secondary_checkpoint (g : EngineState) : EngineState :=
  { g with colo_conn_hash := g.colo_conn_hash.map (fun e => (e.1, connection_destroy e.2)),
           colo_do_checkpoint := false }

/-- `colo_proxy_setup`: validate the `addr` property and the `queue=all`
direction, then initialize the per-filter state, clear `colo_do_checkpoint`,
and create fresh incoming queue, hash table and connection list.  Returns the
successor state and the error message, if any (on error the state is
untouched). -/
def colo_proxy_setup (g : EngineState) : EngineState × Option String :=
  if g.s.addr = none then
    (g, some "filter colo_proxy needs addr property set!")
  else if g.s.direction ≠ NetFilterDirection.NET_FILTER_DIRECTION_ALL then
    (g, some "colo need queue all packet, please startup colo-proxy with queue=all")
  else
    ({ g with
        s := { g.s with
          sockfd := -1,
          hashtable_size := 0,
          need_compare_ev := false,
          incoming_queue := [] },
        colo_do_checkpoint := false,
        colo_conn_hash := [] }, none)

/-- `colo_proxy_start_one` for the (single) colo-proxy filter: `none` models
the `assert(s->colo_mode == mode)` failing.  In primary mode the transport is
actively connected (`colo_proxy_connect`, outcome abstracted as
`transport_ok`), the status becomes `COLO_PROXY_RUNNING` and the compare
thread is created; in secondary mode the engine waits for the peer
(`colo_wait_incoming`) and no compare thread is created.  On transport failure
an error is set and the state is left unchanged.  The result is
(state, error, compare-thread-spawned). -/
def colo_proxy_start_one (g : EngineState) (mode : ColoMode)
    (transport_ok : Bool) : Option (EngineState × Option String × Bool) :=
  if g.s.colo_mode ≠ mode then none
  else if g.s.colo_mode = ColoMode.COLO_MODE_PRIMARY then
    if transport_ok then
      some ({ g with
          s := { g.s with
            socket_open := true,
            fd_handler := true,
            status := ProxyStatus.COLO_PROXY_RUNNING,
            thread_running := true } }, none, true)
    else
      some (g, some "colo proxy connect failed", false)
  else
    if transport_ok then
      some ({ g with
          s := { g.s with
            socket_open := true,
            fd_handler := true,
            status := ProxyStatus.COLO_PROXY_RUNNING } }, none, false)
    else
      some (g, some "colo proxy wait incoming failed", false)

/-- `colo_proxy_start`: run `colo_proxy_start_one` over the (single) filter;
returns `-1` when an error was reported, `0` otherwise, with the successor
state. -/
def colo_proxy_start (g : EngineState) (mode : ColoMode) (transport_ok : Bool) :
    Option (Int × EngineState) :=
  (colo_proxy_start_one g mode transport_ok).map
    (fun r => (if r.2.1.isSome then -1 else 0, r.1))

/-- `colo_proxy_stop_one`: `none` models the `assert(s->colo_mode == mode)`
failing.  The status becomes `COLO_PROXY_DONE`; when the socket is open
(`sockfd >= 0`) the fd handler is removed and the socket closed; on the
primary, the checkpoint handler runs, the compare thread's wake event is
signalled and the thread is joined; on the secondary only the checkpoint
handler runs. -/
def colo_proxy_stop_one (g : EngineState) (mode : ColoMode) :
    Option EngineState :=
  if g.s.colo_mode ≠ mode then none
  else
    let s1 := { g with s := { g.s with status := ProxyStatus.COLO_PROXY_DONE } }
    let s2 := if 0 ≤ g.s.sockfd then
        { s1 with s := { s1.s with fd_handler := false, socket_open := false } }
      else s1
    if g.s.colo_mode = ColoMode.COLO_MODE_PRIMARY then
      let s3 := colo_proxy_primary_checkpoint s2
      some { s3 with
          s := { s3.s with
            need_compare_ev := true,
            thread_running := false } }
    else
      some (colo_proxy_secondary_checkpoint s2)

/-- `colo_proxy_stop`: run `colo_proxy_stop_one` over the (single) filter. -/
def colo_proxy_stop (g : EngineState) (mode : ColoMode) : Option EngineState :=
  colo_proxy_stop_one g mode

/-! ## Comparison task (spec-modelled) -/

/-- Modelled from the spec: the acceptable per-flow backlog bound enforced by
the Comparison Task (the comparison thread body is not in the available
source). -/
def MAX_QUEUE_DEPTH : Nat := 1024

/-- Modelled from the spec: the head-comparison drain loop for one flow.
While both queues are non-empty the two head packets are compared; equal heads
are both dequeued and released, a mismatch stops the drain and requests a
checkpoint with the remaining packets preserved.  When one side is exhausted,
a backlog on the other side beyond `MAX_QUEUE_DEPTH` also requests a
checkpoint.  Returns the remaining queues and the checkpoint request. -/
def colo_compare_connection : List Packet → List Packet →
    List Packet × List Packet × Bool
  | p :: ps, q :: qs =>
    if p.data = q.data then colo_compare_connection ps qs
    else (p :: ps, q :: qs, true)
  | pl, sl =>
    (pl, sl, decide (MAX_QUEUE_DEPTH < pl.length ∨ MAX_QUEUE_DEPTH < sl.length))

/-- Modelled from the spec: the Comparison Task's treatment of one pending
flow — its queues are replaced by what `colo_compare_connection` leaves, and
`processing` is cleared exactly when both queues end up empty. -/
def compare_one (c : Connection) : Connection :=
  { c with
    primary_list := (colo_compare_connection c.primary_list c.secondary_list).1,
    secondary_list := (colo_compare_connection c.primary_list c.secondary_list).2.1,
    processing := !((colo_compare_connection c.primary_list c.secondary_list).1.isEmpty
      && (colo_compare_connection c.primary_list c.secondary_list).2.1.isEmpty) }

/-- Modelled from the spec: one scan pass of the Comparison Task over the
connection table.  Flows marked `processing` are drained via `compare_one`;
the scan reports whether any flow requested a checkpoint. -/
def colo_compare_scan : List (ConnectionKey × Connection) →
    List (ConnectionKey × Connection) × Bool
  | [] => ([], false)
  | e :: rest =>
    let r := colo_compare_scan rest
    if e.2.processing then
      ((e.1, compare_one e.2) :: r.1,
       ((colo_compare_connection e.2.primary_list e.2.secondary_list).2.2 || r.2))
    else (e :: r.1, r.2)

/-- Modelled from the spec: one wakeup of `colo_proxy_compare_thread`
(referenced by `colo_proxy_start_one` but not defined in the available
source): consume the wake event, scan the pending flows, and raise the
checkpoint-requested flag if any flow diverged. -/
def colo_proxy_compare_thread (g : EngineState) : EngineState :=
  let r := colo_compare_scan g.colo_conn_hash
  { g with colo_conn_hash := r.1,
           colo_do_checkpoint := g.colo_do_checkpoint || r.2,
           s := { g.s with need_compare_ev := false } }

/-! ## The engine as an event system -/

/-- The operations of the engine, as externally triggerable events. -/
inductive Event where
  | setupEv
  | startEv (mode : ColoMode) (transport_ok : Bool)
  | stopEv (mode : ColoMode)
  | notifyCheckpointEv
  | queryCheckpointEv
  | receiveIovEv (iov : List (List Nat))
  | sockSendEv (iov : List (List Nat))
  | sockReceiveEv (stream : List Nat)
  | compareThreadEv
deriving DecidableEq, Repr

/-- The successor state of the engine after one event.  Events whose model
returns `none` (assertion failure) or only produces output leave the state
unchanged. -/
def step (g : EngineState) : Event → EngineState
  | Event.setupEv => (colo_proxy_setup g).1
  | Event.startEv mode ok =>
    match colo_proxy_start g mode ok with
    | some r => r.2
    | none => g
  | Event.stopEv mode => (colo_proxy_stop g mode).getD g
  | Event.notifyCheckpointEv => colo_proxy_notify_checkpoint g
  | Event.queryCheckpointEv => g
  | Event.receiveIovEv iov => (colo_proxy_receive_iov g iov).2.1
  | Event.sockSendEv _ => g
  | Event.sockReceiveEv st => (colo_proxy_sock_receive g st).g
  | Event.compareThreadEv => colo_proxy_compare_thread g

/-! ## Concrete states and packets used by witnesses -/

/-- A concrete running primary-mode engine with an empty registry. -/
def gRunPrimary : EngineState :=
  { s := { colo_mode := ColoMode.COLO_MODE_PRIMARY,
           addr := some "192.168.0.100:12345",
           direction := NetFilterDirection.NET_FILTER_DIRECTION_ALL,
           sockfd := 3,
           status := ProxyStatus.COLO_PROXY_RUNNING,
           hashtable_size := 0,
           incoming_queue := [],
           fd_handler := true,
           socket_open := true,
           need_compare_ev := false,
           thread_running := true },
    colo_conn_hash := [],
    colo_do_checkpoint := false,
    hashtable_max_size := 16 }

/-- A concrete running secondary-mode engine with an empty registry. -/
def gRunSecondary : EngineState :=
  { s := { colo_mode := ColoMode.COLO_MODE_SECONDARY,
           addr := some ":12345",
           direction := NetFilterDirection.NET_FILTER_DIRECTION_ALL,
           sockfd := 4,
           status := ProxyStatus.COLO_PROXY_RUNNING,
           hashtable_size := 0,
           incoming_queue := [],
           fd_handler := true,
           socket_open := true,
           need_compare_ev := false,
           thread_running := false },
    colo_conn_hash := [],
    colo_do_checkpoint := false,
    hashtable_max_size := 16 }

/-- A concrete 54-byte TCP/IPv4-over-Ethernet packet
(10.0.0.1:80 → 10.0.0.2:8080). -/
def tcpPacket : List Nat :=
  List.replicate 12 0 ++ [8, 0] ++
  [69, 0, 0, 40, 0, 0, 0, 0, 64, 6, 0, 0] ++
  [10, 0, 0, 1] ++ [10, 0, 0, 2] ++
  [0, 80, 31, 144] ++ List.replicate 16 0

/-! ## Claims -/

/-- C10: for every input iovec, `colo_proxy_receive_iov` returns 0 when the
engine state is not Running and the full byte size of the iovec when it is
Running (reporting the packet as already sent); in both cases the whole engine
state — registry, flow queues and checkpoint flag included — is unchanged and
the `sent_cb` completion callback is never invoked. -/
theorem colo_proxy_receive_iov_spec (g : EngineState) (iov : List (List Nat)) :
    colo_proxy_receive_iov g iov =
      ((if g.s.status = ProxyStatus.COLO_PROXY_RUNNING then iov_size iov else 0),
       g, false) := by
  by_cases h : g.s.status = ProxyStatus.COLO_PROXY_RUNNING <;>
    simp [colo_proxy_receive_iov, h]

/-- C1 (code defect): the packet-arrival path is claimed to classify each
packet, look up or create its Connection, and append it to a flow queue; but
at a concrete classifiable TCP packet arriving while Running in primary mode,
`colo_proxy_receive_iov` merely reports the packet consumed (returns its byte
size) and performs no classification, registry lookup/creation or queue
append — the engine state, including the still-empty registry, is returned
unchanged (the handler bodies are placeholder comments in the source). -/
theorem colo_proxy_receive_iov_no_enqueue :
    classify tcpPacket ≠ none ∧
    colo_proxy_receive_iov gRunPrimary [tcpPacket] = (54, gRunPrimary, false) ∧
    gRunPrimary.colo_conn_hash = [] := by
  refine ⟨by decide, by decide, rfl⟩

/-- C7: `start(mode)` — when the transport is established, the status becomes
Running and a comparison thread is spawned exactly in Primary mode; when the
transport cannot be established, an error is reported (`colo_proxy_start`
returns -1) and the state, in particular the status, is unchanged. -/
theorem colo_proxy_start_spec (g : EngineState) (mode : ColoMode) (ok : Bool)
    (hm : g.s.colo_mode = mode) :
    ∃ g' err spawned,
      colo_proxy_start_one g mode ok = some (g', err, spawned) ∧
      (ok = true →
        g'.s.status = ProxyStatus.COLO_PROXY_RUNNING ∧ err = none ∧
        (spawned = true ↔ mode = ColoMode.COLO_MODE_PRIMARY) ∧
        colo_proxy_start g mode ok = some (0, g')) ∧
      (ok = false →
        err.isSome = true ∧ g' = g ∧ g'.s.status = g.s.status ∧
        colo_proxy_start g mode ok = some (-1, g')) := by
  cases mode <;> cases ok <;>
      simp [colo_proxy_start_one, colo_proxy_start, hm] <;>
    refine ⟨_, _, ⟨rfl, rfl⟩, ?_⟩ <;> simp

/-- Witness for C7: the theorem applied to a concrete primary engine with a
successful transport connection, and to the same engine with a failed one. -/
theorem colo_proxy_start_spec_witness :
    gRunPrimary.s.colo_mode = ColoMode.COLO_MODE_PRIMARY ∧
    (∃ g' err spawned,
      colo_proxy_start_one gRunPrimary ColoMode.COLO_MODE_PRIMARY true =
        some (g', err, spawned) ∧
      (true = true →
        g'.s.status = ProxyStatus.COLO_PROXY_RUNNING ∧ err = none ∧
        (spawned = true ↔ ColoMode.COLO_MODE_PRIMARY = ColoMode.COLO_MODE_PRIMARY) ∧
        colo_proxy_start gRunPrimary ColoMode.COLO_MODE_PRIMARY true = some (0, g')) ∧
      (true = false →
        err.isSome = true ∧ g' = gRunPrimary ∧ g'.s.status = gRunPrimary.s.status ∧
        colo_proxy_start gRunPrimary ColoMode.COLO_MODE_PRIMARY true = some (-1, g'))) :=
  ⟨rfl, colo_proxy_start_spec gRunPrimary ColoMode.COLO_MODE_PRIMARY true rfl⟩

/-- C8: `stop(mode)` transitions the engine to Done; when the socket was open
(`sockfd >= 0`) the fd handler is removed and the socket closed; in Primary
mode the comparison task's wake event is additionally signalled and the
comparison thread is joined before returning. -/
theorem colo_proxy_stop_spec (g : EngineState) (mode : ColoMode)
    (hm : g.s.colo_mode = mode) :
    ∃ g', colo_proxy_stop g mode = some g' ∧
      g'.s.status = ProxyStatus.COLO_PROXY_DONE ∧
      (0 ≤ g.s.sockfd → g'.s.fd_handler = false ∧ g'.s.socket_open = false) ∧
      (mode = ColoMode.COLO_MODE_PRIMARY →
        g'.s.need_compare_ev = true ∧ g'.s.thread_running = false) := by
  cases mode <;>
    by_cases hfd : 0 ≤ g.s.sockfd <;>
      simp [colo_proxy_stop, colo_proxy_stop_one, colo_proxy_primary_checkpoint,
            colo_proxy_secondary_checkpoint, hm, hfd]

/-- Helper: every event other than the lifecycle coordinator's setup and stop
preserves a raised checkpoint-requested flag. -/
theorem step_preserves_checkpoint (g : EngineState) (e : Event)
    (hsetup : e ≠ Event.setupEv) (hstop : ∀ m, e ≠ Event.stopEv m)
    (hck : g.colo_do_checkpoint = true) :
    (step g e).colo_do_checkpoint = true := by
  cases e with
  | setupEv => exact absurd rfl hsetup
  | stopEv m => exact absurd rfl (hstop m)
  | startEv mode ok =>
    simp only [step, colo_proxy_start, colo_proxy_start_one]
    split_ifs <;> simp [hck]
  | notifyCheckpointEv => simp [step, colo_proxy_notify_checkpoint]
  | queryCheckpointEv => exact hck
  | receiveIovEv iov =>
    simp only [step, colo_proxy_receive_iov]
    split_ifs <;> simp [hck]
  | sockSendEv iov => exact hck
  | sockReceiveEv st =>
    simp only [step, colo_proxy_sock_receive]
    split_ifs with h1 h2
    · simp only [colo_proxy_enqueue_secondary_packet]
      cases classify ((st.drop 8).take (decode_ssize (st.take 8)).toNat) <;>
        simp [hck]
    · simp [hck]
    · simp [hck]
  | compareThreadEv => simp [step, colo_proxy_compare_thread, hck]

/-- C3: `colo_proxy_query_checkpoint` is a pure, non-blocking read of the
checkpoint-requested flag: querying changes no engine state, so repeated polls
between state-changing events return the same value; and once the flag is set
it remains observable as true across every event of the engine other than the
lifecycle coordinator's setup and stop (whose checkpoint handlers acknowledge
completion) — no other operation resets it. -/
theorem colo_proxy_query_checkpoint_spec (g : EngineState) (e : Event)
    (hsetup : e ≠ Event.setupEv) (hstop : ∀ m, e ≠ Event.stopEv m)
    (hck : colo_proxy_query_checkpoint g = true) :
    colo_proxy_query_checkpoint (step g e) = true ∧
    step g Event.queryCheckpointEv = g := by
  exact ⟨step_preserves_checkpoint g e hsetup hstop hck, rfl⟩

/-- A concrete engine state whose checkpoint-requested flag is raised. -/
def gCkpt : EngineState := { gRunPrimary with colo_do_checkpoint := true }

/-- Witness for C3: the theorem applied at a concrete raised-flag state and a
concrete non-lifecycle event (a packet arrival). -/
theorem colo_proxy_query_checkpoint_spec_witness :
    (Event.receiveIovEv [[1, 2, 3]] ≠ Event.setupEv) ∧
    (∀ m, Event.receiveIovEv [[1, 2, 3]] ≠ Event.stopEv m) ∧
    colo_proxy_query_checkpoint gCkpt = true ∧
    (colo_proxy_query_checkpoint (step gCkpt (Event.receiveIovEv [[1, 2, 3]])) = true ∧
     step gCkpt Event.queryCheckpointEv = gCkpt) :=
  ⟨fun h => Event.noConfusion h, fun _ h => Event.noConfusion h, rfl,
   colo_proxy_query_checkpoint_spec gCkpt (Event.receiveIovEv [[1, 2, 3]])
     (fun h => Event.noConfusion h) (fun _ h => Event.noConfusion h) rfl⟩

/-- Helper: decoding the encoded 8-byte length recovers the value (for values
below `2^63`, i.e. non-negative `ssize_t`). -/
theorem decode_encode_ssize (n : Nat) (h : n < 9223372036854775808) :
    decode_ssize (encode_ssize n) = (n : Int) := by
  have h2 : (2 : Nat) ^ 63 = 9223372036854775808 := by norm_num
  simp only [encode_ssize, decode_ssize, h2]
  have hu : n % 256 % 256 + 256 * (n / 256 % 256 % 256 + 256 * (n / 65536 % 256 % 256 +
      256 * (n / 16777216 % 256 % 256 + 256 * (n / 4294967296 % 256 % 256 +
      256 * (n / 1099511627776 % 256 % 256 + 256 * (n / 281474976710656 % 256 % 256 +
      256 * (n / 72057594037927936 % 256 % 256))))))) = n := by omega
  rw [hu, if_pos h]

/-- Helper: the 8-byte length header is split off the front of a frame. -/
theorem take_eight_encode (n : Nat) (l : List Nat) :
    (encode_ssize n ++ l).take 8 = encode_ssize n := by
  rw [show (8 : Nat) = (encode_ssize n).length from rfl]
  exact List.take_left _ _

/-- Helper: dropping the 8-byte length header leaves the payload bytes. -/
theorem drop_eight_encode (n : Nat) (l : List Nat) :
    (encode_ssize n ++ l).drop 8 = l := by
  rw [show (8 : Nat) = (encode_ssize n).length from rfl]
  exact List.drop_left _ _

/-- Helper: receiving a well-formed frame (payload length in
`(0, NET_BUFSIZE)`) reads exactly the payload, enqueues it as a
secondary-origin packet in primary mode, and re-injects it in secondary
mode. -/
theorem sock_receive_frame (g : EngineState) (payload rest : List Nat)
    (h0 : 0 < payload.length) (hlt : payload.length < NET_BUFSIZE) :
    colo_proxy_sock_receive g (encode_ssize payload.length ++ payload ++ rest) =
      if g.s.colo_mode = ColoMode.COLO_MODE_PRIMARY then
        ⟨colo_proxy_enqueue_secondary_packet g payload, some payload, true⟩
      else
        ⟨{ g with s := { g.s with incoming_queue := g.s.incoming_queue ++ [payload] } },
         some payload, true⟩ := by
  have hnb : NET_BUFSIZE = 69632 := rfl
  have hdec : decode_ssize ((encode_ssize payload.length ++ (payload ++ rest)).take 8)
      = (payload.length : Int) := by
    rw [take_eight_encode, decode_encode_ssize _ (by omega)]
  have hdrop : (encode_ssize payload.length ++ (payload ++ rest)).drop 8
      = payload ++ rest := drop_eight_encode _ _
  rw [List.append_assoc]
  simp only [colo_proxy_sock_receive, hdec, hdrop]
  rw [if_pos ⟨by exact_mod_cast h0, by exact_mod_cast hlt⟩]
  have hpay : List.take ((payload.length : Int)).toNat (payload ++ rest)
      = payload := by simp [List.take_left]
  rw [hpay]

/-- Helper: a frame declaring a payload length of at least `NET_BUFSIZE` is
ignored by the receive path: no allocation, nothing read, state unchanged. -/
theorem sock_receive_reject (g : EngineState) (stream : List Nat)
    (h : (NET_BUFSIZE : Int) ≤ decode_ssize (stream.take 8)) :
    colo_proxy_sock_receive g stream = ⟨g, none, false⟩ := by
  unfold colo_proxy_sock_receive
  rw [if_neg]
  intro hc
  have := hc.2
  omega

/-- C4 counterexample: the round-trip identity of the framing does not hold
for every payload buffer: a payload of exactly `NET_BUFSIZE` bytes is emitted
by `colo_proxy_sock_send` as a frame declaring length `NET_BUFSIZE`, yet
`colo_proxy_sock_receive` on that very frame receives nothing. -/
theorem colo_sock_roundtrip_cex :
    decode_ssize ((colo_proxy_sock_send [List.replicate NET_BUFSIZE 0]).take 8)
      = (NET_BUFSIZE : Int) ∧
    (colo_proxy_sock_receive gRunSecondary
        (colo_proxy_sock_send [List.replicate NET_BUFSIZE 0])).received = none := by
  have hsz : iov_size [List.replicate NET_BUFSIZE 0] = NET_BUFSIZE := by
    simp [iov_size]
  have hne : NET_BUFSIZE ≠ 0 := by decide
  have hsend : colo_proxy_sock_send [List.replicate NET_BUFSIZE 0]
      = encode_ssize NET_BUFSIZE ++ List.replicate NET_BUFSIZE 0 := by
    simp [colo_proxy_sock_send, hsz, hne]
  have hdec : decode_ssize
      ((encode_ssize NET_BUFSIZE ++ List.replicate NET_BUFSIZE 0).take 8)
      = (NET_BUFSIZE : Int) := by
    rw [take_eight_encode, decode_encode_ssize _ (by decide)]
  refine ⟨by rw [hsend]; exact hdec, ?_⟩
  rw [hsend, sock_receive_reject gRunSecondary _ hdec.ge]

/-- C4 (amended): for every non-empty payload buffer shorter than the maximum
frame size `NET_BUFSIZE`, `colo_proxy_sock_send` emits the fixed-width 8-byte
length header immediately followed by exactly the payload bytes, and the frame
is received whole and unsplit by `colo_proxy_sock_receive` on the peer with a
byte-identical payload; a zero-length payload is a no-op framing unit (nothing
is emitted). -/
theorem colo_sock_send_receive_roundtrip (g : EngineState)
    (payload rest : List Nat) (h0 : 0 < payload.length)
    (hlt : payload.length < NET_BUFSIZE) :
    colo_proxy_sock_send [payload] = encode_ssize payload.length ++ payload ∧
    colo_proxy_sock_send [] = [] ∧
    (colo_proxy_sock_receive g
        (colo_proxy_sock_send [payload] ++ rest)).received = some payload := by
  have hsz : iov_size [payload] = payload.length := by simp [iov_size]
  have hsend : colo_proxy_sock_send [payload]
      = encode_ssize payload.length ++ payload := by
    simp [colo_proxy_sock_send, hsz, Nat.pos_iff_ne_zero.mp h0]
  refine ⟨hsend, rfl, ?_⟩
  rw [hsend, sock_receive_frame g payload rest h0 hlt]
  split_ifs <;> rfl

/-- Witness for C4: the spec's own example frame `[4][0xDE 0xAD 0xBE 0xEF]`
round-trips through send and receive. -/
theorem colo_sock_send_receive_roundtrip_witness :
    0 < [222, 173, 190, 239].length ∧
    [222, 173, 190, 239].length < NET_BUFSIZE ∧
    (colo_proxy_sock_send [[222, 173, 190, 239]]
        = encode_ssize [222, 173, 190, 239].length ++ [222, 173, 190, 239] ∧
     colo_proxy_sock_send [] = [] ∧
     (colo_proxy_sock_receive gRunSecondary
        (colo_proxy_sock_send [[222, 173, 190, 239]] ++ [])).received
       = some [222, 173, 190, 239]) :=
  ⟨by decide, by decide,
   colo_sock_send_receive_roundtrip gRunSecondary [222, 173, 190, 239] []
     (by decide) (by decide)⟩

/-- C5 counterexample: a received frame declaring payload length
`NET_BUFSIZE` is not treated as a fatal transport error: the engine does not
transition to Done — the state, still Running, is completely unchanged (the
frame is silently ignored; only the no-allocation half of the claim holds). -/
theorem colo_sock_receive_oversized_cex :
    (colo_proxy_sock_receive gRunPrimary (encode_ssize NET_BUFSIZE)).g.s.status
      ≠ ProxyStatus.COLO_PROXY_DONE ∧
    (colo_proxy_sock_receive gRunPrimary (encode_ssize NET_BUFSIZE)).g
      = gRunPrimary ∧
    (colo_proxy_sock_receive gRunPrimary (encode_ssize NET_BUFSIZE)).allocated
      = false := by
  refine ⟨by decide, by decide, by decide⟩

/-- C5 (amended): for every received frame whose declared payload length is at
least `NET_BUFSIZE`, the receive path performs no payload allocation and
delivers nothing; however the engine state is completely unchanged — the
oversized frame is silently ignored rather than treated as a session-fatal
transport error (no transition to Done, no condition surfaced to the
caller). -/
theorem colo_sock_receive_oversized (g : EngineState) (stream : List Nat)
    (h : (NET_BUFSIZE : Int) ≤ decode_ssize (stream.take 8)) :
    colo_proxy_sock_receive g stream = ⟨g, none, false⟩ := by
  unfold colo_proxy_sock_receive
  rw [if_neg]
  intro hc
  have := hc.2
  omega

/-- Witness for C5: the theorem applied to a concrete Running primary engine
and the concrete frame header declaring length `NET_BUFSIZE`. -/
theorem colo_sock_receive_oversized_witness :
    (NET_BUFSIZE : Int) ≤ decode_ssize ((encode_ssize NET_BUFSIZE).take 8) ∧
    colo_proxy_sock_receive gRunPrimary (encode_ssize NET_BUFSIZE)
      = ⟨gRunPrimary, none, false⟩ :=
  ⟨by decide,
   colo_sock_receive_oversized gRunPrimary (encode_ssize NET_BUFSIZE) (by decide)⟩

/-- C6 (spec-modelled registry): the number of live Connections never exceeds
the configured bound: lookup/insert preserves the bound; when the registry is
at the bound and a new key arrives, exactly one existing flow is evicted, its
queues fully drained, and the size stays at the bound after the new Connection
is created; the insertion itself always succeeds (the key is present
afterwards, the packet path never fails on registry pressure); below the
bound, no eviction happens. -/
theorem lookup_or_create_bound (tbl : List (ConnectionKey × Connection))
    (bound : Nat) (k : ConnectionKey) (hb : 0 < bound)
    (hle : tbl.length ≤ bound) :
    (lookup_or_create tbl bound k).1.length ≤ bound ∧
    ((conn_lookup (lookup_or_create tbl bound k).1 k).isSome = true) ∧
    (tbl.length = bound → conn_lookup tbl k = none →
      ∃ c, (lookup_or_create tbl bound k).2 = some c ∧
        c.primary_list = [] ∧ c.secondary_list = [] ∧
        (lookup_or_create tbl bound k).1.length = bound) ∧
    (tbl.length < bound → (lookup_or_create tbl bound k).2 = none) := by
  have hkk : connection_key_equal k k = true := by
    simp [connection_key_equal]
  cases hf : tbl.find? (fun e => connection_key_equal e.1 k) with
  | some e =>
    have hl : conn_lookup tbl k = some e.2 := by
      simp [conn_lookup, hf]
    simp only [lookup_or_create, hf]
    refine ⟨hle, by simp [conn_lookup, hf], ?_, ?_⟩
    · intro _ hnone
      rw [hl] at hnone
      exact absurd hnone (by simp)
    · intro _
      trivial
  | none =>
    by_cases hlt : tbl.length < bound
    · simp only [lookup_or_create, hf, if_pos hlt]
      refine ⟨by simpa using hlt, ?_, ?_, fun _ => trivial⟩
      · simp [conn_lookup, List.find?, hkk]
      · intro heq _
        omega
    · have heq : tbl.length = bound := by omega
      have hne : tbl ≠ [] := by
        intro h
        rw [h] at heq
        simp at heq
        omega
      cases hgl : tbl.getLast? with
      | none =>
        exact absurd (List.getLast?_eq_none_iff.mp hgl) hne
      | some e =>
        simp only [lookup_or_create, hf, if_neg hlt, hgl]
        refine ⟨?_, ?_, ?_, ?_⟩
        · simp [List.length_dropLast]
          omega
        · simp [conn_lookup, List.find?, hkk]
        · intro _ _
          refine ⟨connection_destroy e.2, rfl, rfl, rfl, ?_⟩
          simp [List.length_dropLast]
          omega
        · intro h
          omega

/-- Two distinct concrete 5-tuple keys. -/
def keyA : ConnectionKey := ⟨1, 2, 3, 4, 6⟩

/-- A second concrete key, differing from `keyA`. -/
def keyB : ConnectionKey := ⟨5, 6, 7, 8, 6⟩

/-- A concrete connection with pending packets in both queues. -/
def connA : Connection :=
  { primary_list := [⟨[170], 1⟩], secondary_list := [⟨[187], 1⟩],
    processing := true, ip_proto := 6 }

/-- Witness for C6: a registry at its bound of one, holding `keyA`, receives
the fresh key `keyB`: the single existing flow is evicted drained, the size
stays at the bound, and the new key is present. -/
theorem lookup_or_create_bound_witness :
    0 < 1 ∧ [(keyA, connA)].length ≤ 1 ∧
    ((lookup_or_create [(keyA, connA)] 1 keyB).1.length ≤ 1 ∧
     ((conn_lookup (lookup_or_create [(keyA, connA)] 1 keyB).1 keyB).isSome = true) ∧
     ([(keyA, connA)].length = 1 → conn_lookup [(keyA, connA)] keyB = none →
       ∃ c, (lookup_or_create [(keyA, connA)] 1 keyB).2 = some c ∧
         c.primary_list = [] ∧ c.secondary_list = [] ∧
         (lookup_or_create [(keyA, connA)] 1 keyB).1.length = 1) ∧
     ([(keyA, connA)].length < 1 →
       (lookup_or_create [(keyA, connA)] 1 keyB).2 = none)) :=
  ⟨by decide, by decide,
   lookup_or_create_bound [(keyA, connA)] 1 keyB (by decide) (by decide)⟩

/-- Helper: after `lookup_or_create`, the key is present in the registry. -/
theorem lookup_or_create_found (tbl : List (ConnectionKey × Connection))
    (bound : Nat) (k : ConnectionKey) :
    ∃ c, conn_lookup (lookup_or_create tbl bound k).1 k = some c := by
  have hkk : connection_key_equal k k = true := by simp [connection_key_equal]
  cases hf : tbl.find? (fun e => connection_key_equal e.1 k) with
  | some e =>
    exact ⟨e.2, by simp [lookup_or_create, conn_lookup, hf]⟩
  | none =>
    by_cases hlt : tbl.length < bound
    · exact ⟨connection_new k.ip_proto,
        by simp [lookup_or_create, conn_lookup, hf, if_pos hlt, List.find?, hkk]⟩
    · cases hgl : tbl.getLast? with
      | none => exact ⟨connection_new k.ip_proto,
          by simp [lookup_or_create, conn_lookup, hf, if_neg hlt, hgl, List.find?, hkk]⟩
      | some e => exact ⟨connection_new k.ip_proto,
          by simp [lookup_or_create, conn_lookup, hf, if_neg hlt, hgl, List.find?, hkk]⟩

/-- Helper: enqueueing a secondary-origin packet appends it at the tail of the
flow's `secondary_list` and marks the flow as having pending work. -/
theorem conn_lookup_enqueue (tbl : List (ConnectionKey × Connection))
    (k : ConnectionKey) (p : Packet) (c : Connection)
    (h : conn_lookup tbl k = some c) :
    conn_lookup (conn_enqueue_secondary tbl k p) k =
      some { c with secondary_list := c.secondary_list ++ [p],
                    processing := true } := by
  induction tbl with
  | nil => simp [conn_lookup] at h
  | cons e rest ih =>
    by_cases he : connection_key_equal e.1 k
    · have hc : e.2 = c := by
        simpa [conn_lookup, List.find?, he] using h
      subst hc
      simp [conn_enqueue_secondary, conn_lookup, List.find?, he]
    · have h' : conn_lookup rest k = some c := by
        simpa [conn_lookup, List.find?, he] using h
      have := ih h'
      simpa [conn_enqueue_secondary, conn_lookup, List.find?, he] using this

/-- C9: for every frame accepted by the receive path (declared length inside
`(0, NET_BUFSIZE)`): in Primary mode the payload is read byte-identically,
classified, and appended as a secondary-origin packet at the tail of the
corresponding flow's `secondary_list`, and the comparison task's wake event is
raised; in Secondary mode the payload is appended to the incoming queue for
re-injection into the guest's traffic path and the registry is untouched (not
queued for comparison). -/
theorem colo_sock_receive_dispatch (gp gs : EngineState)
    (payload rest : List Nat) (key : ConnectionKey)
    (hp : gp.s.colo_mode = ColoMode.COLO_MODE_PRIMARY)
    (hs : gs.s.colo_mode = ColoMode.COLO_MODE_SECONDARY)
    (h0 : 0 < payload.length) (hlt : payload.length < NET_BUFSIZE)
    (hcl : classify payload = some key) :
    ((colo_proxy_sock_receive gp
        (encode_ssize payload.length ++ payload ++ rest)).received = some payload ∧
     (colo_proxy_sock_receive gp
        (encode_ssize payload.length ++ payload ++ rest)).g.s.need_compare_ev = true ∧
     ∃ c, conn_lookup
            (lookup_or_create gp.colo_conn_hash gp.hashtable_max_size key).1 key
            = some c ∧
       conn_lookup (colo_proxy_sock_receive gp
            (encode_ssize payload.length ++ payload ++ rest)).g.colo_conn_hash key
         = some { c with
                  secondary_list := c.secondary_list ++ [⟨payload, payload.length⟩],
                  processing := true }) ∧
    ((colo_proxy_sock_receive gs
        (encode_ssize payload.length ++ payload ++ rest)).received = some payload ∧
     (colo_proxy_sock_receive gs
        (encode_ssize payload.length ++ payload ++ rest)).g.s.incoming_queue
        = gs.s.incoming_queue ++ [payload] ∧
     (colo_proxy_sock_receive gs
        (encode_ssize payload.length ++ payload ++ rest)).g.colo_conn_hash
        = gs.colo_conn_hash) := by
  have hfp := sock_receive_frame gp payload rest h0 hlt
  rw [if_pos hp] at hfp
  have hfs := sock_receive_frame gs payload rest h0 hlt
  rw [if_neg (by simp [hs])] at hfs
  rw [hfp, hfs]
  refine ⟨⟨rfl, ?_, ?_⟩, rfl, rfl, rfl⟩
  · simp [colo_proxy_enqueue_secondary_packet, hcl]
  · simp only [colo_proxy_enqueue_secondary_packet, hcl]
    obtain ⟨c, hc⟩ :=
      lookup_or_create_found gp.colo_conn_hash gp.hashtable_max_size key
    exact ⟨c, hc, conn_lookup_enqueue _ _ _ _ hc⟩

/-- The flow key of `tcpPacket`. -/
def tcpKey : ConnectionKey := ⟨167772161, 167772162, 80, 8080, 6⟩

/-- Witness for C9: the theorem applied at concrete primary and secondary
engines and the concrete framed `tcpPacket`. -/
theorem colo_sock_receive_dispatch_witness :
    gRunPrimary.s.colo_mode = ColoMode.COLO_MODE_PRIMARY ∧
    gRunSecondary.s.colo_mode = ColoMode.COLO_MODE_SECONDARY ∧
    0 < tcpPacket.length ∧ tcpPacket.length < NET_BUFSIZE ∧
    classify tcpPacket = some tcpKey ∧
    (((colo_proxy_sock_receive gRunPrimary
        (encode_ssize tcpPacket.length ++ tcpPacket ++ [])).received = some tcpPacket ∧
     (colo_proxy_sock_receive gRunPrimary
        (encode_ssize tcpPacket.length ++ tcpPacket ++ [])).g.s.need_compare_ev = true ∧
     ∃ c, conn_lookup
            (lookup_or_create gRunPrimary.colo_conn_hash
              gRunPrimary.hashtable_max_size tcpKey).1 tcpKey = some c ∧
       conn_lookup (colo_proxy_sock_receive gRunPrimary
            (encode_ssize tcpPacket.length ++ tcpPacket ++ [])).g.colo_conn_hash tcpKey
         = some { c with
                  secondary_list := c.secondary_list ++ [⟨tcpPacket, tcpPacket.length⟩],
                  processing := true }) ∧
    ((colo_proxy_sock_receive gRunSecondary
        (encode_ssize tcpPacket.length ++ tcpPacket ++ [])).received = some tcpPacket ∧
     (colo_proxy_sock_receive gRunSecondary
        (encode_ssize tcpPacket.length ++ tcpPacket ++ [])).g.s.incoming_queue
        = gRunSecondary.s.incoming_queue ++ [tcpPacket] ∧
     (colo_proxy_sock_receive gRunSecondary
        (encode_ssize tcpPacket.length ++ tcpPacket ++ [])).g.colo_conn_hash
        = gRunSecondary.colo_conn_hash)) :=
  ⟨rfl, rfl, by decide, by decide, by decide,
   colo_sock_receive_dispatch gRunPrimary gRunSecondary tcpPacket [] tcpKey
     rfl rfl (by decide) (by decide) (by decide)⟩

/-- Helper: the drain loop of the comparison task removes the same number of
packets from the front of both queues (pairwise-matched heads), stops with
both queues non-empty only on a head mismatch, and requests a checkpoint
exactly on a mismatch or an over-depth backlog. -/
theorem colo_compare_connection_drain (pl sl : List Packet) :
    ∃ n, (colo_compare_connection pl sl).1 = pl.drop n ∧
         (colo_compare_connection pl sl).2.1 = sl.drop n ∧
         ((colo_compare_connection pl sl).2.2 = false →
           (colo_compare_connection pl sl).1 = [] ∨
           (colo_compare_connection pl sl).2.1 = []) ∧
         ((colo_compare_connection pl sl).2.2 = true →
           (∃ p ps q qs, (colo_compare_connection pl sl).1 = p :: ps ∧
              (colo_compare_connection pl sl).2.1 = q :: qs ∧ p.data ≠ q.data) ∨
           (((colo_compare_connection pl sl).1 = [] ∨
             (colo_compare_connection pl sl).2.1 = []) ∧
            (MAX_QUEUE_DEPTH < (colo_compare_connection pl sl).1.length ∨
             MAX_QUEUE_DEPTH < (colo_compare_connection pl sl).2.1.length))) := by
  induction pl generalizing sl with
  | nil =>
    refine ⟨0, rfl, rfl, fun _ => Or.inl rfl, fun hb => Or.inr ⟨Or.inl rfl, ?_⟩⟩
    simpa [colo_compare_connection] using hb
  | cons p ps ih =>
    cases sl with
    | nil =>
      refine ⟨0, rfl, rfl, fun _ => Or.inr rfl, fun hb => Or.inr ⟨Or.inr rfl, ?_⟩⟩
      simpa [colo_compare_connection] using hb
    | cons q qs =>
      by_cases he : p.data = q.data
      · have hstep : colo_compare_connection (p :: ps) (q :: qs)
            = colo_compare_connection ps qs := by
          simp [colo_compare_connection, he]
        obtain ⟨n, h1, h2, h3, h4⟩ := ih qs
        rw [hstep]
        exact ⟨n + 1, by simpa using h1, by simpa using h2, h3, h4⟩
      · have hstep : colo_compare_connection (p :: ps) (q :: qs)
            = (p :: ps, q :: qs, true) := by
          simp [colo_compare_connection, he]
        rw [hstep]
        exact ⟨0, rfl, rfl, by simp, fun _ => Or.inl ⟨p, ps, q, qs, rfl, rfl, he⟩⟩

/-- Helper: a flow with pending work is drained by the scan pass (its
`compare_one` result is in the scanned table), and if its drain requested a
checkpoint the scan pass reports it. -/
theorem colo_compare_scan_mem (tbl : List (ConnectionKey × Connection))
    (k : ConnectionKey) (c : Connection)
    (hmem : (k, c) ∈ tbl) (hproc : c.processing = true) :
    ((k, compare_one c) ∈ (colo_compare_scan tbl).1) ∧
    ((colo_compare_connection c.primary_list c.secondary_list).2.2 = true →
      (colo_compare_scan tbl).2 = true) := by
  induction tbl with
  | nil => cases hmem
  | cons e rest ih =>
    rcases List.mem_cons.mp hmem with heq | hmem'
    · have hsc : (colo_compare_scan ((k, c) :: rest)).1
          = (k, compare_one c) :: (colo_compare_scan rest).1 := by
        simp [colo_compare_scan, hproc]
      have hsc2 : (colo_compare_scan ((k, c) :: rest)).2
          = ((colo_compare_connection c.primary_list c.secondary_list).2.2
              || (colo_compare_scan rest).2) := by
        simp [colo_compare_scan, hproc]
      rw [← heq]
      refine ⟨by rw [hsc]; exact List.mem_cons_self _ _, fun hck => ?_⟩
      rw [hsc2, hck, Bool.true_or]
    · obtain ⟨ih1, ih2⟩ := ih hmem'
      by_cases hep : e.2.processing
      · have hsc : (colo_compare_scan (e :: rest)).1
            = (e.1, compare_one e.2) :: (colo_compare_scan rest).1 := by
          simp [colo_compare_scan, hep]
        have hsc2 : (colo_compare_scan (e :: rest)).2
            = ((colo_compare_connection e.2.primary_list e.2.secondary_list).2.2
                || (colo_compare_scan rest).2) := by
          simp [colo_compare_scan, hep]
        refine ⟨by rw [hsc]; exact List.mem_cons_of_mem _ ih1, fun hck => ?_⟩
        rw [hsc2, ih2 hck, Bool.or_true]
      · have hsc : (colo_compare_scan (e :: rest)).1
            = e :: (colo_compare_scan rest).1 := by
          simp [colo_compare_scan, hep]
        have hsc2 : (colo_compare_scan (e :: rest)).2
            = (colo_compare_scan rest).2 := by
          simp [colo_compare_scan, hep]
        exact ⟨by rw [hsc]; exact List.mem_cons_of_mem _ ih1,
               fun hck => by rw [hsc2]; exact ih2 hck⟩

/-- C2 (spec-modelled comparison task): for every flow marked as having
pending work, the task repeatedly compares the head packets of
`primary_list` and `secondary_list` while both are non-empty — the remaining
queues are always equal-length tail suffixes of the originals, so queued
packets are preserved, never reordered or discarded beyond the matched
prefix — it only stops with both queues non-empty on a head mismatch, and
whenever the heads disagree or one side's backlog exceeds the acceptable
bound it raises the engine's checkpoint-requested flag while the flow's
remaining packets stay in the scanned table. -/
theorem colo_compare_thread_spec (g : EngineState) (k : ConnectionKey)
    (c : Connection) (hmem : (k, c) ∈ g.colo_conn_hash)
    (hproc : c.processing = true) :
    (∃ n, (colo_compare_connection c.primary_list c.secondary_list).1
            = c.primary_list.drop n ∧
          (colo_compare_connection c.primary_list c.secondary_list).2.1
            = c.secondary_list.drop n) ∧
    ((colo_compare_connection c.primary_list c.secondary_list).2.2 = false →
      (colo_compare_connection c.primary_list c.secondary_list).1 = [] ∨
      (colo_compare_connection c.primary_list c.secondary_list).2.1 = []) ∧
    ((colo_compare_connection c.primary_list c.secondary_list).2.2 = true →
      ((∃ p ps q qs,
          (colo_compare_connection c.primary_list c.secondary_list).1 = p :: ps ∧
          (colo_compare_connection c.primary_list c.secondary_list).2.1 = q :: qs ∧
          p.data ≠ q.data) ∨
       (((colo_compare_connection c.primary_list c.secondary_list).1 = [] ∨
         (colo_compare_connection c.primary_list c.secondary_list).2.1 = []) ∧
        (MAX_QUEUE_DEPTH
            < (colo_compare_connection c.primary_list c.secondary_list).1.length ∨
         MAX_QUEUE_DEPTH
            < (colo_compare_connection c.primary_list c.secondary_list).2.1.length))) ∧
      (colo_proxy_compare_thread g).colo_do_checkpoint = true ∧
      (k, compare_one c) ∈ (colo_proxy_compare_thread g).colo_conn_hash) := by
  obtain ⟨n, h1, h2, h3, h4⟩ :=
    colo_compare_connection_drain c.primary_list c.secondary_list
  obtain ⟨hm, hf⟩ := colo_compare_scan_mem g.colo_conn_hash k c hmem hproc
  refine ⟨⟨n, h1, h2⟩, h3, fun hck => ⟨h4 hck, ?_, ?_⟩⟩
  · show (g.colo_do_checkpoint || (colo_compare_scan g.colo_conn_hash).2) = true
    rw [hf hck, Bool.or_true]
  · exact hm

/-- A concrete primary engine whose single flow has disagreeing head
packets. -/
def gMismatch : EngineState :=
  { gRunPrimary with colo_conn_hash := [(keyA, connA)] }

/-- Witness for C2: the theorem applied to a concrete engine holding one
pending flow whose head packets differ. -/
theorem colo_compare_thread_spec_witness :
    (keyA, connA) ∈ gMismatch.colo_conn_hash ∧ connA.processing = true ∧
    ((∃ n, (colo_compare_connection connA.primary_list connA.secondary_list).1
            = connA.primary_list.drop n ∧
          (colo_compare_connection connA.primary_list connA.secondary_list).2.1
            = connA.secondary_list.drop n) ∧
    ((colo_compare_connection connA.primary_list connA.secondary_list).2.2 = false →
      (colo_compare_connection connA.primary_list connA.secondary_list).1 = [] ∨
      (colo_compare_connection connA.primary_list connA.secondary_list).2.1 = []) ∧
    ((colo_compare_connection connA.primary_list connA.secondary_list).2.2 = true →
      ((∃ p ps q qs,
          (colo_compare_connection connA.primary_list connA.secondary_list).1
            = p :: ps ∧
          (colo_compare_connection connA.primary_list connA.secondary_list).2.1
            = q :: qs ∧
          p.data ≠ q.data) ∨
       (((colo_compare_connection connA.primary_list connA.secondary_list).1 = [] ∨
         (colo_compare_connection connA.primary_list connA.secondary_list).2.1 = []) ∧
        (MAX_QUEUE_DEPTH <
            (colo_compare_connection connA.primary_list connA.secondary_list).1.length ∨
         MAX_QUEUE_DEPTH <
            (colo_compare_connection connA.primary_list connA.secondary_list).2.1.length))) ∧
      (colo_proxy_compare_thread gMismatch).colo_do_checkpoint = true ∧
      (keyA, compare_one connA) ∈ (colo_proxy_compare_thread gMismatch).colo_conn_hash)) :=
  ⟨by decide, by decide,
   colo_compare_thread_spec gMismatch keyA connA (by decide) (by decide)⟩

/-- Witness for C8: the theorem applied to a concrete running primary engine
with an open socket. -/
theorem colo_proxy_stop_spec_witness :
    gRunPrimary.s.colo_mode = ColoMode.COLO_MODE_PRIMARY ∧
    (∃ g', colo_proxy_stop gRunPrimary ColoMode.COLO_MODE_PRIMARY = some g' ∧
      g'.s.status = ProxyStatus.COLO_PROXY_DONE ∧
      (0 ≤ gRunPrimary.s.sockfd →
        g'.s.fd_handler = false ∧ g'.s.socket_open = false) ∧
      (ColoMode.COLO_MODE_PRIMARY = ColoMode.COLO_MODE_PRIMARY →
        g'.s.need_compare_ev = true ∧ g'.s.thread_running = false)) :=
  ⟨rfl, colo_proxy_stop_spec gRunPrimary ColoMode.COLO_MODE_PRIMARY rfl⟩

end ColoProxy
